import Mathlib

/-!
Shallow embedding of `src/pipestat/pipestat.py` (the pipestat result-reporting
store) and proofs about its claims.

The embedding follows the Python source line by line:

* Python values reported to the store become the inductive `Value`; Python
  dicts are association lists, and Python's `in` operator (the membership
  test used by the composite-attribute validation) becomes `pyContains`,
  which returns a `TypeError` for values that support no membership test,
  exactly as Python does.
* Fallible Python code becomes `Except PyErr`; raising an exception is
  `Except.error`, and a raised exception means no state was produced, so the
  caller observes the pre-call state (the Python code mutates nothing before
  the raise points modelled here).
* The `PipestatManager` object becomes the structure `Manager`; the external
  PostgreSQL database becomes an explicit `Database`/`Table` value threaded
  through the relational operations.
* `const.py` and `helpers.py` of the repository are not part of the staged
  sources; the constants and helpers they provide (`ATTRS_BY_TYPE`,
  `FIXED_COLUMNS`, `DB_CREDENTIALS`, `schema_to_columns`) are modelled from
  the spec, each marked `Modelled from the spec:` in its doc comment.
-/

namespace Pipestat

/-- The exception classes raised by the code under `src/pipestat/pipestat.py`.
`schemaError` carries the list of known result identifiers its message
enumerates; `valueError` carries the required-attribute set its message names.
`typeError` and `assertionError` are Python's built-in exceptions, raised by
the `in` operator on a non-container and by a failed `assert`. -/
inductive PyErr where
  | schemaError (known : List String)
  | valueError (attrs : List String)
  | typeError
  | assertionError
  | keyError
  | missingConfigDataError
  | pipestatDatabaseError
deriving DecidableEq

/-- A Python value as reported to the store: a scalar (`None`, bool, number,
string) or a container (list, dict).  Numbers are modelled as rationals: the
code never computes with a reported number, it only stores and compares it. -/
inductive Value where
  | vnull
  | vbool (b : Bool)
  | vnum (q : Rat)
  | vstr (s : String)
  | vlist (xs : List Value)
  | vmap (kvs : List (String × Value))

/-- Python `isinstance(value, Mapping)`: only a dict is a `Mapping` here. -/
def Value.isMapping : Value → Bool
  | .vmap _ => true
  | _ => false

/-- Python `list.__contains__` compares each element with `==`; a string is
`==` to another value only when that value is the same string. -/
def pyEqStr (a : String) : Value → Bool
  | .vstr s => s == a
  | _ => false

/-- Whether the first character list is a prefix of the second. -/
def listPrefixEq : List Char → List Char → Bool
  | [], _ => true
  | _ :: _, [] => false
  | a :: as, b :: bs => a == b && listPrefixEq as bs

/-- Whether the first character list occurs contiguously inside the second. -/
def listInfixIn : List Char → List Char → Bool
  | needle, [] => needle.isEmpty
  | needle, c :: rest => listPrefixEq needle (c :: rest) || listInfixIn needle rest

/-- Python `sub in s` for strings: contiguous substring containment. -/
def strIn (sub s : String) : Bool := listInfixIn sub.data s.data

/-- Python's membership test `item in value` for a string `item`:
substring containment on a string, element equality on a list, key membership
on a dict, and `TypeError` on every other value (Python: "argument of type
... is not iterable"). -/
def pyContains (value : Value) (item : String) : Except PyErr Bool :=
  match value with
  | .vstr s => .ok (strIn item s)
  | .vlist xs => .ok (xs.any (pyEqStr item))
  | .vmap kvs => .ok (kvs.any (fun p => p.1 == item))
  | _ => .error .typeError

/-- The eager list comprehension `[f a for a in l]` under exceptions: every
element is evaluated left to right and the first raised exception propagates. -/
def mapExcept (f : String → Except PyErr Bool) : List String → Except PyErr (List Bool)
  | [] => .ok []
  | a :: rest =>
    match f a with
    | .error e => .error e
    | .ok b =>
      match mapExcept f rest with
      | .error e => .error e
      | .ok bs => .ok (b :: bs)

/-- Python dict lookup on an association list (keys are unique in a dict, so
first match is the lookup). -/
def alookup {α : Type} : List (String × α) → String → Option α
  | [], _ => none
  | (k, v) :: rest, key => if k == key then some v else alookup rest key

/-- Python dict assignment `d[key] = v`: replace the value at `key` when
present, else add the pair at the end (insertion order). -/
def aset {α : Type} : List (String × α) → String → α → List (String × α)
  | [], key, v => [(key, v)]
  | (k, w) :: rest, key, v =>
    if k == key then (key, v) :: rest else (k, w) :: aset rest key v

/-- Python dict indexing `d[key]`: `KeyError` when the key is absent. -/
def lookupExc {α : Type} (l : List (String × α)) (k : String) : Except PyErr α :=
  match alookup l k with
  | some v => .ok v
  | none => .error .keyError

/-- The schema's `properties` mapping: result identifier to the string at its
`type` key (`self.schema[SCHEMA_PROP_KEY][result_identifier][SCHEMA_TYPE_KEY]`
is the only field of a result descriptor the reporting code reads). -/
abbrev SchemaProps := List (String × String)

/-- Modelled from the spec: `ATTRS_BY_TYPE` lives in the repository's
`const.py`, which is not among the staged sources.  Per the spec's data model,
an "image" type requires the attributes path, thumbnail_path and title, and a
scalar type requires none. -/
def ATTRS_BY_TYPE : List (String × List String) :=
  [("image", ["path", "thumbnail_path", "title"]),
   ("number", []),
   ("integer", []),
   ("string", []),
   ("boolean", [])]

/-- The scenario schema of the spec: a `number` result and an `image` result. -/
def scenarioProps : SchemaProps :=
  [("alignment_rate", "number"), ("cover_image", "image")]

/-- The file backend's on-disk shape, loaded into `DATA_KEY`:
namespace to record identifier to result identifier to value. -/
abbrev ResRecord := List (String × Value)
abbrev NsRecords := List (String × ResRecord)
abbrev NestedMap := List (String × NsRecords)

/-- The chained membership test of `report`'s file branch:
`self.name in self.data and record_identifier in self.data[self.name] and
result_identifier in self.data[self.name][record_identifier]`. -/
def lookup3 (d : NestedMap) (ns rid rsid : String) : Option Value :=
  match alookup d ns with
  | none => none
  | some nsMap =>
    match alookup nsMap rid with
    | none => none
    | some recMap => alookup recMap rsid

/-- The file branch's write: `setdefault(self.name, PXAM())`,
`setdefault(record_identifier, PXAM())`, then assignment of the value at
`result_identifier`. -/
def set3 (d : NestedMap) (ns rid rsid : String) (v : Value) : NestedMap :=
  let nsMap := (alookup d ns).getD []
  let recMap := (alookup nsMap rid).getD []
  aset d ns (aset nsMap rid (aset recMap rsid v))

/-- A value as bound into an SQL statement by `_report_postgres`:
`Json(value) if isinstance(value, Mapping) else value`. -/
inductive Bound where
  | json (v : Value)
  | direct (v : Value)

/-- One row of the namespace's table: the `record_identifier` column plus the
result columns; a column absent from `cells` is SQL NULL. -/
structure Row where
  record_identifier : String
  cells : List (String × Bound)

/-- The rows of one table, in insertion order. -/
abbrev Table := List Row

/-- One table of the external database: its name, the column definitions the
CREATE TABLE statement was built from, and its rows. -/
structure TableDef where
  tname : String
  columnsSql : String
  rows : Table

/-- The external PostgreSQL database: the tables it holds. -/
abbrev Database := List TableDef

/-- `_check_table_exists`: the information-schema lookup
`SELECT EXISTS(SELECT * FROM information_schema.tables WHERE table_name=%s)`. -/
def _check_table_exists (db : Database) (table_name : String) : Bool :=
  db.any (fun t => t.tname == table_name)

/-- `_check_record` as `_report_postgres` calls it (always with
`condition_col="record_identifier"`): `SELECT EXISTS(SELECT 1 from {table}
WHERE record_identifier=%s)`. -/
def _check_record (t : Table) (condition_val : String) : Bool :=
  t.any (fun r => r.record_identifier == condition_val)

/-- The effect of `UPDATE {table_name} SET {column}=%s WHERE
record_identifier=%s` on one row: every row whose `record_identifier` column
equals the bound record identifier gets the named column set to the bound
value; every other row is untouched. -/
def sqlUpdateRow (record_identifier col : String) (b : Bound) (r : Row) : Row :=
  if r.record_identifier == record_identifier
  then { r with cells := aset r.cells col b } else r

/-- `_report_postgres`: if no row carries `record_identifier`, INSERT a row
populating only the `record_identifier` column; then UPDATE the single column
named by the one key of `value` on every row matching `record_identifier`,
binding `Json(value)` for a `Mapping` and the value itself otherwise.  The
`assert len(column) == 1` becomes the `assertionError` branch (unreachable
from `report`, which always passes a one-entry dict). -/
def _report_postgres (t : Table) (record_identifier : String)
    (value : List (String × Value)) : Except PyErr Table :=
  let t1 := if _check_record t record_identifier then t
            else t ++ [{ record_identifier := record_identifier, cells := [] }]
  match value with
  | [(col, v)] =>
    let bound := if v.isMapping then Bound.json v else Bound.direct v
    .ok (t1.map (sqlUpdateRow record_identifier col bound))
  | _ => .error .assertionError

/-- Modelled from the spec: `FIXED_COLUMNS` lives in the repository's
`const.py`, which is not among the staged sources.  Per the spec's relational
table schema it is the list holding the mandatory `record_identifier` column
definition. -/
def FIXED_COLUMNS : List String := ["record_identifier TEXT UNIQUE"]

/-- Modelled from the spec: `schema_to_columns` lives in the repository's
`helpers.py`, which is not among the staged sources.  Per the spec it derives
one column per schema result identifier, the SQL type inferred from the
declared type (a composite type maps to a JSON-capable column type). -/
def schema_to_columns (props : SchemaProps) : List String :=
  props.map fun p =>
    p.1 ++ " " ++ (if ((alookup ATTRS_BY_TYPE p.2).getD []).isEmpty then "TEXT" else "JSONB")

/-- The value of the Python expression `FIXED_COLUMNS.append(xs)`:
`list.append` mutates the list in place and returns `None`, so the name this
call's result is bound to holds `None`, never a list. -/
def pyAppendResult (_fixed : List String) (_appended : List String) : Option (List String) :=
  none

/-- Python `sep.join(arg)`: joins a list of strings; `TypeError` when the
argument is `None` ("can only join an iterable"). -/
def pyJoin (sep : String) : Option (List String) → Except PyErr String
  | some xs => .ok (String.intercalate sep xs)
  | none => .error .typeError

/-- The manager: the fields `__init__` stores on the object.  `config` is the
parsed DB config (empty on the file backend), `dbConnected` whether
`DB_CONNECTION_KEY` holds a live connection object.  `data` is the loaded
file-backend store (the source's `DATA_KEY` is `None` on the relational
backend, modelled as the empty mapping: only the file branch ever reads it). -/
structure Manager where
  name : String
  schema : SchemaProps
  file : Option String
  data : NestedMap
  config : List (String × String)
  dbConnected : Bool

/-- `_init_postgres_table`: warn and return `False` when the
information-schema lookup finds the table; otherwise build the column list as
`FIXED_COLUMNS.append(schema_to_columns(schema=self.schema))` and CREATE the
table from `','.join(columns)`. -/
def _init_postgres_table (m : Manager) (db : Database) : Except PyErr (Bool × Database) :=
  if _check_table_exists db m.name then
    .ok (false, db)
  else
    match pyJoin "," (pyAppendResult FIXED_COLUMNS (schema_to_columns m.schema)) with
    | .error e => .error e
    | .ok cols =>
      .ok (true, db ++ [{ tname := m.name, columnsSql := cols, rows := [] }])

/-- Python truthiness of an optional string (`if db_file_path:` /
`if self.file:`): `None` and the empty string are falsy. -/
def truthy : Option String → Bool
  | none => false
  | some s => s != ""

/-- The external `ubiquerg.expandpath` utility (an out-of-scope collaborator
per the spec), modelled as the identity on paths. -/
def expandpath (p : String) : String := p

/-- Lines 290 to 302 of `report`: the validation that precedes any write.
Raise `SchemaError` enumerating the known results when `result_identifier` is
not a schema key; look up the declared type's required attributes in
`ATTRS_BY_TYPE`; when that set is non-empty, accept a `Mapping` outright,
otherwise evaluate `all([attr in value for attr in attrs])` and raise
`ValueError` naming the attribute set when it is false. -/
def validateResult (props : SchemaProps) (result_identifier : String)
    (value : Value) : Except PyErr Unit :=
  if !((props.map Prod.fst).contains result_identifier) then
    .error (.schemaError (props.map Prod.fst))
  else
    match lookupExc props result_identifier with
    | .error e => .error e
    | .ok ty =>
      match lookupExc ATTRS_BY_TYPE ty with
      | .error e => .error e
      | .ok attrs =>
        if attrs.isEmpty then .ok ()
        else if value.isMapping then .ok ()
        else
          match mapExcept (pyContains value) attrs with
          | .error e => .error e
          | .ok bs => if bs.all id then .ok () else .error (.valueError attrs)

/-- `report`: validate, then dispatch on `if self.file:`.  The file branch
returns `False` without mutating when the (namespace, record, result) triple
is already present (a warning is logged), else stores the value and returns
`True`; the relational branch delegates to `_report_postgres` with the
one-entry dict and returns `True`.  The returned `Manager` and `Table` are
the post-call states of the object and of the namespace's database table. -/
def report (m : Manager) (t : Table) (record_identifier result_identifier : String)
    (value : Value) : Except PyErr (Bool × Manager × Table) :=
  match validateResult m.schema result_identifier value with
  | .error e => .error e
  | .ok () =>
    if truthy m.file then
      if (lookup3 m.data m.name record_identifier result_identifier).isSome then
        .ok (false, m, t)
      else
        .ok (true, { m with
          data := set3 m.data m.name record_identifier result_identifier value }, t)
    else
      match _report_postgres t record_identifier [(result_identifier, value)] with
      | .error e => .error e
      | .ok t' => .ok (true, m, t')

/-- `check_connection`: raise `PipestatDatabaseError` when the object is
file-backed (`self.file is not None`), else report whether a connection
object is bound. -/
def check_connection (m : Manager) : Except PyErr Bool :=
  if m.file.isSome then .error .pipestatDatabaseError
  else .ok m.dbConnected

/-- Modelled from the spec: `DB_CREDENTIALS` lives in the repository's
`const.py`, which is not among the staged sources.  Per the spec's connection
config interface the required keys are database name, user, password, host
and port. -/
def DB_CREDENTIALS : List String := ["name", "user", "password", "host", "port"]

/-- `PipestatManager.__init__` after the schema is read and validated:
`db_file_path` truthy selects the file backend (data loaded from the file,
here the parameter `fileData`); otherwise a truthy `db_config_path` selects
the relational backend, whose parsed config `cfg` must hold every
`DB_CREDENTIALS` key, and the table is initialized; otherwise
`MissingConfigDataError`. -/
def initPipestatManager (name : String) (props : SchemaProps)
    (db_file_path db_config_path : Option String)
    (fileData : NestedMap) (cfg : List (String × String)) (db : Database) :
    Except PyErr (Manager × Database) :=
  if truthy db_file_path then
    .ok ({ name := name, schema := props, file := db_file_path.map expandpath,
           data := fileData, config := [], dbConnected := false }, db)
  else if truthy db_config_path then
    if !(DB_CREDENTIALS.all fun key => cfg.any fun p => p.1 == key) then
      .error .missingConfigDataError
    else
      let m : Manager := { name := name, schema := props, file := none,
                           data := [], config := cfg, dbConnected := false }
      match _init_postgres_table m db with
      | .error e => .error e
      | .ok (_, db') => .ok (m, db')
  else
    .error .missingConfigDataError

/-! Concrete objects used by the closed theorems below: the scenario schema
over a file-backed manager, a file-backed manager whose store already holds a
result, and a relational-backed manager with its config and a table. -/

/-- A file-backed manager over the scenario schema with an empty store. -/
def mFile0 : Manager :=
  { name := "test", schema := scenarioProps, file := some "/tmp/results.yaml",
    data := [], config := [], dbConnected := false }

/-- A file-backed manager whose store already holds
`test/sample1/alignment_rate = 92.3`. -/
def mFile1 : Manager :=
  { mFile0 with data := [("test", [("sample1", [("alignment_rate", .vnum 92.3)])])] }

/-- A parsed DB config carrying every `DB_CREDENTIALS` key. -/
def cfgPg : List (String × String) :=
  [("name", "pipestat"), ("user", "user"), ("password", "pw"),
   ("host", "localhost"), ("port", "5432")]

/-- A relational-backed manager over the scenario schema. -/
def mPg0 : Manager :=
  { name := "test", schema := scenarioProps, file := none, data := [],
    config := cfgPg, dbConnected := false }

/-- A database already holding the namespace's table. -/
def dbWithTest : Database :=
  [{ tname := "test", columnsSql := "record_identifier TEXT UNIQUE", rows := [] }]

/-- A table whose `sample1` row already holds a value in the
`alignment_rate` column. -/
def tPg : Table :=
  [{ record_identifier := "sample1",
     cells := [("alignment_rate", .direct (.vnum 92.3))] }]

instance {ε α : Type} [DecidableEq ε] [DecidableEq α] : DecidableEq (Except ε α) :=
  fun x y =>
    match x, y with
    | .ok a, .ok b =>
      if h : a = b then .isTrue (by rw [h]) else .isFalse (fun hc => h (by injection hc))
    | .error a, .error b =>
      if h : a = b then .isTrue (by rw [h]) else .isFalse (fun hc => h (by injection hc))
    | .ok _, .error _ => .isFalse (fun hc => Except.noConfusion hc)
    | .error _, .ok _ => .isFalse (fun hc => Except.noConfusion hc)

/-! Helper lemmas about the association-list primitives and the validation. -/

lemma alookup_mem {α : Type} {l : List (String × α)} {k : String} {x : α}
    (h : alookup l k = some x) : (k, x) ∈ l := by
  induction l with
  | nil => simp [alookup] at h
  | cons p rest ih =>
    obtain ⟨a, b⟩ := p
    by_cases hk : a = k
    · subst hk
      rw [alookup, if_pos (by simp)] at h
      obtain rfl : b = x := by simpa using h
      exact List.mem_cons_self _ _
    · rw [alookup, if_neg (by simp [hk])] at h
      exact List.mem_cons_of_mem _ (ih h)

lemma alookup_aset_self {α : Type} (l : List (String × α)) (k : String) (v : α) :
    alookup (aset l k v) k = some v := by
  induction l with
  | nil => simp [aset, alookup]
  | cons p rest ih =>
    obtain ⟨a, b⟩ := p
    by_cases hk : a = k
    · subst hk
      simp [aset, alookup]
    · rw [aset, if_neg (by simp [hk]), alookup, if_neg (by simp [hk])]
      exact ih

lemma alookup_aset_ne {α : Type} (l : List (String × α)) (k k' : String) (v : α)
    (h : k' ≠ k) : alookup (aset l k v) k' = alookup l k' := by
  induction l with
  | nil => simp [aset, alookup, Ne.symm h]
  | cons p rest ih =>
    obtain ⟨a, b⟩ := p
    by_cases hk : a = k
    · subst hk
      rw [aset, if_pos (by simp)]
      simp [alookup, Ne.symm h]
    · rw [aset, if_neg (by simp [hk])]
      simp [alookup, ih]

lemma lookup3_set3_self (d : NestedMap) (ns rid rsid : String) (v : Value) :
    lookup3 (set3 d ns rid rsid v) ns rid rsid = some v := by
  simp [set3, lookup3, alookup_aset_self]

lemma mapExcept_forall_true (f : String → Except PyErr Bool) (l : List String) :
    (∃ bs, mapExcept f l = .ok bs ∧ bs.all id = true) ↔ ∀ a ∈ l, f a = .ok true := by
  induction l with
  | nil => simp [mapExcept]
  | cons a rest ih =>
    constructor
    · rintro ⟨bs, hbs, hall⟩
      rw [mapExcept] at hbs
      match hfa : f a with
      | .error e => rw [hfa] at hbs; exact absurd hbs (by simp)
      | .ok b =>
        rw [hfa] at hbs
        match hrest : mapExcept f rest with
        | .error e => rw [hrest] at hbs; exact absurd hbs (by simp)
        | .ok cs =>
          rw [hrest] at hbs
          obtain rfl : b :: cs = bs := by simpa using hbs
          simp only [List.all_cons, Bool.and_eq_true, id] at hall
          intro x hx
          rcases List.mem_cons.mp hx with rfl | hx'
          · rw [hfa, hall.1]
          · exact ih.mp ⟨cs, hrest, hall.2⟩ x hx'
    · intro hall
      obtain ⟨cs, hcs, hcall⟩ := ih.mpr (fun x hx => hall x (List.mem_cons_of_mem a hx))
      refine ⟨true :: cs, ?_, by simpa using hcall⟩
      rw [mapExcept, hall a (List.mem_cons_self a rest), hcs]

lemma validateResult_known (props : SchemaProps) (rsid : String) (v : Value)
    (ty : String) (attrs : List String)
    (hty : alookup props rsid = some ty)
    (hattrs : alookup ATTRS_BY_TYPE ty = some attrs) :
    validateResult props rsid v =
      if attrs.isEmpty then .ok ()
      else if v.isMapping then .ok ()
      else
        match mapExcept (pyContains v) attrs with
        | .error e => .error e
        | .ok bs => if bs.all id then .ok () else .error (.valueError attrs) := by
  simp [validateResult, lookupExc, hty, hattrs]
  intro hcon
  exact absurd (alookup_mem hty) (hcon ty)

lemma isEmpty_false_of_ne_nil {l : List String} (h : l ≠ []) : l.isEmpty = false := by
  cases l with
  | nil => exact absurd rfl h
  | cons a rest => rfl

lemma validateResult_composite_nonmapping (props : SchemaProps) (rsid : String)
    (v : Value) (ty : String) (attrs : List String)
    (hty : alookup props rsid = some ty)
    (hattrs : alookup ATTRS_BY_TYPE ty = some attrs)
    (hne : attrs ≠ []) (hnm : v.isMapping = false) :
    validateResult props rsid v =
      match mapExcept (pyContains v) attrs with
      | .error e => .error e
      | .ok bs => if bs.all id then .ok () else .error (.valueError attrs) := by
  rw [validateResult_known props rsid v ty attrs hty hattrs,
    isEmpty_false_of_ne_nil hne, hnm]
  simp

lemma validateResult_mapping_ok (props : SchemaProps) (rsid : String)
    (v : Value) (ty : String) (attrs : List String)
    (hty : alookup props rsid = some ty)
    (hattrs : alookup ATTRS_BY_TYPE ty = some attrs)
    (hm : v.isMapping = true) :
    validateResult props rsid v = .ok () := by
  rw [validateResult_known props rsid v ty attrs hty hattrs, hm]
  by_cases he : attrs.isEmpty <;> simp [he]

lemma validate_ok_iff_nonmapping (props : SchemaProps) (rsid : String)
    (v : Value) (ty : String) (attrs : List String)
    (hty : alookup props rsid = some ty)
    (hattrs : alookup ATTRS_BY_TYPE ty = some attrs)
    (hne : attrs ≠ []) (hnm : v.isMapping = false) :
    validateResult props rsid v = .ok () ↔ ∀ a ∈ attrs, pyContains v a = .ok true := by
  rw [validateResult_composite_nonmapping props rsid v ty attrs hty hattrs hne hnm]
  constructor
  · intro hok
    cases hbs : mapExcept (pyContains v) attrs with
    | error e => rw [hbs] at hok; simp at hok
    | ok bs =>
      rw [hbs] at hok
      by_cases hall : bs.all id = true
      · exact (mapExcept_forall_true _ _).mp ⟨bs, hbs, hall⟩
      · simp [hall] at hok
  · intro hall
    obtain ⟨bs, hbs, hball⟩ := (mapExcept_forall_true _ _).mpr hall
    rw [hbs]
    simp [hball]

lemma check_record_false_forall {t : Table} {rid : String}
    (h : _check_record t rid = false) : ∀ r ∈ t, r.record_identifier ≠ rid := by
  simp only [_check_record, List.any_eq_false, beq_iff_eq] at h
  exact h

lemma check_record_true_of_mem {t : Table} {r : Row} {rid : String}
    (hr : r ∈ t) (hm : r.record_identifier = rid) : _check_record t rid = true := by
  simp only [_check_record, List.any_eq_true, beq_iff_eq]
  exact ⟨r, hr, hm⟩

lemma map_update_frame (t : Table) (rid col : String) (b : Bound)
    (h : ∀ r ∈ t, r.record_identifier ≠ rid) :
    t.map (sqlUpdateRow rid col b) = t := by
  induction t with
  | nil => rfl
  | cons r rest ih =>
    rw [List.map_cons, sqlUpdateRow, if_neg (by simp [h r (List.mem_cons_self r rest)]),
      ih (fun x hx => h x (List.mem_cons_of_mem r hx))]

/-! The claims. -/

/-- Claim C1, corrected: with a non-empty required-attribute set, `report`
raises the attribute-missing `ValueError` for a value that is NOT a `Mapping`
when its membership tests all evaluate and at least one required attribute is
missing; the error is raised before the backend dispatch, so it occurs on the
file backend and the relational backend alike.  (The claim's own scenario call
with the dict lacking `thumbnail_path` and `title` does not fail: a `Mapping`
short-circuits the check — see the counterexample.) -/
theorem c1_nonmapping_missing_attr_fails (m : Manager) (t : Table)
    (rid rsid : String) (v : Value) (ty : String) (attrs : List String)
    (bs : List Bool)
    (hty : alookup m.schema rsid = some ty)
    (hattrs : alookup ATTRS_BY_TYPE ty = some attrs)
    (hne : attrs ≠ [])
    (hnm : v.isMapping = false)
    (hbs : mapExcept (pyContains v) attrs = .ok bs)
    (hmiss : bs.all id = false) :
    report m t rid rsid v = .error (.valueError attrs) := by
  have hv := validateResult_composite_nonmapping m.schema rsid v ty attrs hty hattrs hne hnm
  rw [hbs] at hv
  simp only [hmiss] at hv
  simp only [Bool.false_eq_true, if_false] at hv
  simp [report, hv]

/-- Claim C1 witness: with the scenario schema, reporting the plain string
"/x.png" (not a `Mapping`, lacking every required attribute as a substring)
for `cover_image` raises the attribute-missing `ValueError`. -/
theorem c1_witness :
    report mFile0 [] "sample1" "cover_image" (.vstr "/x.png") =
      .error (.valueError ["path", "thumbnail_path", "title"]) :=
  c1_nonmapping_missing_attr_fails mFile0 [] "sample1" "cover_image"
    (.vstr "/x.png") "image" ["path", "thumbnail_path", "title"]
    [false, false, false] rfl rfl (by decide) rfl rfl rfl

/-- Claim C1 counterexample: the claim's own scenario call,
`report("sample1", "cover_image", \x7b"path": "/x.png"\x7d)`, does not fail:
the value is a `Mapping`, `isinstance(value, Mapping)` short-circuits the
attribute check, and the value is accepted and persisted with `True`
returned, although `thumbnail_path` and `title` are missing. -/
theorem c1_counterexample :
    report mFile0 [] "sample1" "cover_image" (.vmap [("path", .vstr "/x.png")]) =
      .ok (true, { mFile0 with data := [("test", [("sample1",
        [("cover_image", Value.vmap [("path", Value.vstr "/x.png")])])])] }, []) := rfl

/-- Claim C5, corrected: for a result whose declared type has a non-empty
required-attribute set, validation accepts the value iff it is a `Mapping`
(accepted without checking its individual keys) or every required attribute
is contained in it under Python's membership test; when the membership tests
all evaluate and at least one attribute is missing it raises `ValueError`
naming the required-attribute set; and a failing membership test (a value
supporting no membership, such as a number) propagates its `TypeError`
instead of the `ValueError`. -/
theorem c5_validate_characterization (props : SchemaProps) (rsid : String)
    (v : Value) (ty : String) (attrs : List String)
    (hty : alookup props rsid = some ty)
    (hattrs : alookup ATTRS_BY_TYPE ty = some attrs)
    (hne : attrs ≠ []) :
    (validateResult props rsid v = .ok () ↔
      (v.isMapping = true ∨ ∀ a ∈ attrs, pyContains v a = .ok true)) ∧
    (∀ bs, v.isMapping = false → mapExcept (pyContains v) attrs = .ok bs →
      bs.all id = false → validateResult props rsid v = .error (.valueError attrs)) ∧
    (∀ e, v.isMapping = false → mapExcept (pyContains v) attrs = .error e →
      validateResult props rsid v = .error e) := by
  refine ⟨?_, ?_, ?_⟩
  · by_cases hm : v.isMapping = true
    · simp only [hm, true_or, iff_true]
      exact validateResult_mapping_ok props rsid v ty attrs hty hattrs hm
    · have hm' : v.isMapping = false := by simpa using hm
      rw [validate_ok_iff_nonmapping props rsid v ty attrs hty hattrs hne hm']
      simp [hm']
  · intro bs hm hbs hfalse
    rw [validateResult_composite_nonmapping props rsid v ty attrs hty hattrs hne hm, hbs]
    simp [hfalse]
  · intro e hm hbs
    rw [validateResult_composite_nonmapping props rsid v ty attrs hty hattrs hne hm, hbs]

/-- Claim C5 witness: the scenario `cover_image` mapping that lacks
`thumbnail_path` and `title` is accepted by validation, because a `Mapping`
is accepted without checking its individual keys. -/
theorem c5_witness :
    validateResult scenarioProps "cover_image" (.vmap [("path", .vstr "/x.png")]) = .ok () :=
  ((c5_validate_characterization scenarioProps "cover_image"
      (.vmap [("path", .vstr "/x.png")]) "image" ["path", "thumbnail_path", "title"]
      rfl rfl (by decide)).1).mpr (Or.inl rfl)

/-- Claim C5 counterexample: a plain string holding all three required
attribute names as substrings is accepted by validation although it is
neither a composite carrying the required attribute keys nor a key/value
structure, so "accepts only if composite or mapping" is false, and no
`ValueError` is raised for this non-mapping value. -/
theorem c5_counterexample :
    validateResult scenarioProps "cover_image" (.vstr "path thumbnail_path title") = .ok () ∧
    (Value.vstr "path thumbnail_path title").isMapping = false := ⟨rfl, rfl⟩

/-- Claim C6: calling `report` with a result identifier that is not a key of
the schema's `properties` raises `SchemaError` carrying the list of known
result identifiers, whatever the value, the record identifier and the
backend; the call returns no new state, so neither backend is written (in
this embedding a write exists only in an `.ok` result). -/
theorem c6_unknown_result (m : Manager) (t : Table) (rid rsid : String) (v : Value)
    (h : (m.schema.map Prod.fst).contains rsid = false) :
    report m t rid rsid v = .error (.schemaError (m.schema.map Prod.fst)) := by
  have hv : validateResult m.schema rsid v = .error (.schemaError (m.schema.map Prod.fst)) := by
    unfold validateResult
    rw [h]
    rfl
  simp [report, hv]

/-- Claim C6 witness: `coverage` is not declared by the scenario schema, so
reporting it raises `SchemaError` enumerating the two known identifiers. -/
theorem c6_witness :
    report mFile0 [] "sample1" "coverage" (.vnum 1) =
      .error (.schemaError ["alignment_rate", "cover_image"]) :=
  c6_unknown_result mFile0 [] "sample1" "coverage" (.vnum 1) rfl

/-- Claim C9: for a result whose declared type has a non-empty
required-attribute set, a non-`Mapping` value passes validation exactly when
every required attribute name is contained in it under Python's membership
test (substring containment on a string, element equality on a list); and
such a value, once the triple is absent from a file-backed store, is
persisted with `True` returned. -/
theorem c9_nonmapping_membership (props : SchemaProps) (rsid : String)
    (v : Value) (ty : String) (attrs : List String)
    (hty : alookup props rsid = some ty)
    (hattrs : alookup ATTRS_BY_TYPE ty = some attrs)
    (hne : attrs ≠ [])
    (hnm : v.isMapping = false) :
    (validateResult props rsid v = .ok () ↔ ∀ a ∈ attrs, pyContains v a = .ok true) ∧
    (∀ (m : Manager) (t : Table) (rid : String),
      m.schema = props →
      truthy m.file = true →
      lookup3 m.data m.name rid rsid = none →
      (∀ a ∈ attrs, pyContains v a = .ok true) →
      report m t rid rsid v =
        .ok (true, { m with data := set3 m.data m.name rid rsid v }, t) ∧
      lookup3 (set3 m.data m.name rid rsid v) m.name rid rsid = some v) := by
  refine ⟨validate_ok_iff_nonmapping props rsid v ty attrs hty hattrs hne hnm, ?_⟩
  intro m t rid hs hf hl hall
  subst hs
  have hok : validateResult m.schema rsid v = .ok () :=
    (validate_ok_iff_nonmapping m.schema rsid v ty attrs hty hattrs hne hnm).mpr hall
  refine ⟨?_, lookup3_set3_self m.data m.name rid rsid v⟩
  simp [report, hok, hf, hl]

/-- The plain string that the C9 witness reports: it holds all three required
attribute names of the `image` type as substrings. -/
def vString9 : Value := .vstr "path thumbnail_path title ok"

/-- Claim C9 witness: the plain string "path thumbnail_path title ok" holds
all three required attribute names as substrings, so it passes composite
validation and is persisted to the file-backed store with `True` returned. -/
theorem c9_witness :
    report mFile0 [] "sample1" "cover_image" vString9 =
      .ok (true, { mFile0 with data := set3 mFile0.data mFile0.name "sample1" "cover_image" vString9 }, []) ∧
    lookup3 (set3 mFile0.data mFile0.name "sample1" "cover_image" vString9)
        mFile0.name "sample1" "cover_image" = some vString9 :=
  (c9_nonmapping_membership scenarioProps "cover_image"
      vString9 "image" ["path", "thumbnail_path", "title"]
      rfl rfl (by decide) rfl).2 mFile0 [] "sample1" rfl rfl rfl (by decide)

/-- Claim C2: on the file backend, when the (namespace, record, result)
triple is already present, `report` returns `False` and the returned manager
is the unchanged `m` — the first reported value stays intact whatever value
the second call supplies; when the triple is absent, `report` stores the
value (the stored value is then found at the triple) and returns `True`. -/
theorem c2_file_no_overwrite (m : Manager) (t : Table)
    (rid rsid : String) (v : Value)
    (hfile : truthy m.file = true)
    (hval : validateResult m.schema rsid v = .ok ()) :
    (∀ w, lookup3 m.data m.name rid rsid = some w →
      report m t rid rsid v = .ok (false, m, t)) ∧
    (lookup3 m.data m.name rid rsid = none →
      report m t rid rsid v =
        .ok (true, { m with data := set3 m.data m.name rid rsid v }, t) ∧
      lookup3 (set3 m.data m.name rid rsid v) m.name rid rsid = some v) := by
  constructor
  · intro w hw
    simp [report, hval, hfile, hw]
  · intro hn
    exact ⟨by simp [report, hval, hfile, hn], lookup3_set3_self m.data m.name rid rsid v⟩

/-- Claim C2 witness: the store already holds
`test/sample1/alignment_rate = 92.3`; reporting 50.0 for the same triple
returns `False` and the manager (hence the stored 92.3) is unchanged. -/
theorem c2_witness :
    report mFile1 [] "sample1" "alignment_rate" (.vnum 50.0) = .ok (false, mFile1, []) :=
  (c2_file_no_overwrite mFile1 [] "sample1" "alignment_rate" (.vnum 50.0) rfl rfl).1
    (.vnum 92.3) rfl

/-- Claim C3, code bug: `_init_postgres_table` checks existence through the
information-schema lookup and, finding the table, returns `False` leaving the
database untouched; but on an absent table the binding
`columns = FIXED_COLUMNS.append(schema_to_columns(schema=self.schema))`
holds `None` (Python's `list.append` returns `None`), so the f-string's
`','.join(columns)` raises `TypeError` and the CREATE TABLE branch can never
complete: the table is never created and `True` is never returned. -/
theorem c3_init_table_type_error :
    _init_postgres_table mPg0 [] = .error .typeError ∧
    _init_postgres_table mPg0 dbWithTest = .ok (false, dbWithTest) := ⟨rfl, rfl⟩

/-- Claim C7: constructing with neither a (truthy) file path nor a DB config
path raises `MissingConfigDataError`; a truthy file path selects the file
backend whatever `db_config_path` holds — the manager's `file` field is set
(and stays truthy), which is exactly the condition `report` and
`check_connection` dispatch on. -/
theorem c7_backend_selection (name : String) (props : SchemaProps)
    (db_file_path db_config_path : Option String)
    (fileData : NestedMap) (cfg : List (String × String)) (db : Database) :
    (truthy db_file_path = false → truthy db_config_path = false →
      initPipestatManager name props db_file_path db_config_path fileData cfg db =
        .error .missingConfigDataError) ∧
    (truthy db_file_path = true →
      initPipestatManager name props db_file_path db_config_path fileData cfg db =
        .ok ({ name := name, schema := props, file := db_file_path.map expandpath,
               data := fileData, config := [], dbConnected := false }, db) ∧
      truthy (db_file_path.map expandpath) = true) := by
  constructor
  · intro h1 h2
    simp [initPipestatManager, h1, h2]
  · intro h1
    refine ⟨by simp [initPipestatManager, h1], ?_⟩
    cases db_file_path with
    | none => simp [truthy] at h1
    | some s => simpa [truthy, expandpath] using h1

/-- Claim C8: on the relational backend (`self.file` falsy), every `report`
call that passes validation returns `True` — including when the targeted
(record, result) cell already holds a value, since `_report_postgres` with a
one-entry dict always succeeds and `report` then falls through to
`return True`; the relational path never returns `False`. -/
theorem c8_postgres_report_true (m : Manager) (t : Table) (rid rsid : String)
    (v : Value)
    (hdb : truthy m.file = false)
    (hval : validateResult m.schema rsid v = .ok ()) :
    ∃ t', report m t rid rsid v = .ok (true, m, t') :=
  ⟨(if _check_record t rid then t
    else t ++ [{ record_identifier := rid, cells := [] }]).map
      (sqlUpdateRow rid rsid (if v.isMapping then Bound.json v else Bound.direct v)),
   by simp [report, hval, hdb, _report_postgres]⟩

/-- Claim C8 witness: the table's `sample1` row already holds a value in the
`alignment_rate` column, and reporting a different value still returns
`True`. -/
theorem c8_witness :
    ∃ t', report mPg0 tPg "sample1" "alignment_rate" (.vnum 50.0) = .ok (true, mPg0, t') :=
  c8_postgres_report_true mPg0 tPg "sample1" "alignment_rate" (.vnum 50.0) rfl rfl

/-- Claim C10: `check_connection` on a file-backed manager (`self.file is
not None`) always raises `PipestatDatabaseError`; only on a database-backed
manager (`file = None`) does it return the boolean connection status. -/
theorem c10_check_connection (m : Manager) :
    (m.file.isSome = true → check_connection m = .error .pipestatDatabaseError) ∧
    (m.file = none → check_connection m = .ok m.dbConnected) := by
  constructor <;> intro h <;> simp [check_connection, h]

/-- Claim C4: the relational upsert on a one-entry dict always succeeds, and
the resulting table is exactly the two-step protocol: when no row matches the
record identifier, exactly one row is appended, carrying the record
identifier and, after the single-column update, a value only in the updated
column (every other result column is null); when a row matches, no row is
added; rows with a different record identifier are untouched; every row
matching the record identifier ends with the named column holding the bound
value — `Json` of a `Mapping`, the bare value otherwise — and all its other
columns unchanged. -/
theorem c4_report_postgres_upsert (t : Table) (rid col : String) (v : Value) :
    ∃ t', _report_postgres t rid [(col, v)] = .ok t' ∧
      (_check_record t rid = false →
        ∃ r', t' = t ++ [r'] ∧ r'.record_identifier = rid ∧
          alookup r'.cells col =
            some (if v.isMapping then Bound.json v else Bound.direct v) ∧
          ∀ c, c ≠ col → alookup r'.cells c = none) ∧
      (_check_record t rid = true → t'.length = t.length) ∧
      (∀ r ∈ t, r.record_identifier ≠ rid → r ∈ t') ∧
      (∀ r' ∈ t', r'.record_identifier = rid →
        alookup r'.cells col =
          some (if v.isMapping then Bound.json v else Bound.direct v)) ∧
      (∀ r ∈ t, r.record_identifier = rid →
        ∃ r' ∈ t', r'.record_identifier = rid ∧
          ∀ c, c ≠ col → alookup r'.cells c = alookup r.cells c) := by
  have hrp : _report_postgres t rid [(col, v)] =
      .ok ((if _check_record t rid then t
            else t ++ [{ record_identifier := rid, cells := [] }]).map
        (sqlUpdateRow rid col (if v.isMapping then Bound.json v else Bound.direct v))) := rfl
  generalize hb : (if v.isMapping then Bound.json v else Bound.direct v) = bnd at hrp ⊢
  refine ⟨_, hrp, ?_, ?_, ?_, ?_, ?_⟩
  · intro hnc
    rw [if_neg (by simp [hnc])]
    refine ⟨{ record_identifier := rid, cells := aset [] col bnd },
      ?_, rfl, by simp [aset, alookup], ?_⟩
    · rw [List.map_append,
        map_update_frame t rid col _ (check_record_false_forall hnc)]
      simp [sqlUpdateRow]
    · intro c hc
      simp [aset, alookup, Ne.symm hc]
  · intro hc
    rw [if_pos (by simp [hc])]
    exact List.length_map t _
  · intro r hr hne
    by_cases hc : _check_record t rid = true
    · rw [if_pos (by simp [hc])]
      exact List.mem_map.mpr ⟨r, hr, by simp [sqlUpdateRow, hne]⟩
    · rw [if_neg (by simp [hc])]
      exact List.mem_map.mpr ⟨r, List.mem_append_left _ hr, by simp [sqlUpdateRow, hne]⟩
  · intro r' hr' hmatch
    obtain ⟨r, hrmem, hru⟩ := List.mem_map.mp hr'
    by_cases hrm : r.record_identifier = rid
    · rw [← hru]
      simp [sqlUpdateRow, hrm, alookup_aset_self]
    · rw [sqlUpdateRow, if_neg (by simp [hrm])] at hru
      rw [← hru] at hmatch
      exact absurd hmatch hrm
  · intro r hr hmatch
    have hc : _check_record t rid = true := check_record_true_of_mem hr hmatch
    rw [if_pos (by simp [hc])]
    refine ⟨sqlUpdateRow rid col bnd r,
      List.mem_map_of_mem _ hr, ?_, ?_⟩
    · simp [sqlUpdateRow, hmatch]
    · intro c hcne
      rw [sqlUpdateRow, if_pos (by simp [hmatch])]
      exact alookup_aset_ne r.cells col c _ hcne

end Pipestat
